import Mathlib

/-!
Shallow embedding of the job-orchestration core of the repository
(`src/api/tasks.py` and its helpers under `src/api/utils/`).

Conventions of the embedding:
* the filesystem is explicit state: regular files are an association list
  `path ↦ content`, symlinks a second association list `path ↦ target`
  (the cache manager creates symlinks with `os.symlink`);
* `hashlib.md5` is an opaque external primitive and is threaded through as an
  explicit function argument `md5 : String → String`; every theorem that does
  not depend on the concrete hash quantifies over it;
* Python exceptions that the code actually raises and catches
  (`FileNotFoundError` from `open`, `FileExistsError` from `os.symlink`,
  `celery.exceptions.Ignore` from the timeout branch of `run_command`) are
  modelled as an explicit exceptional control-flow constructor that the
  outermost `except Exception` handler of `image_to_video` turns into the
  structured `Error` result, exactly as the source does;
* Celery's `update_state` calls and log statements are pure observers with no
  effect on any state the claims mention and are not modelled;
  `cleanup_temp_files` only deletes entries of `TEMP_DIR` older than
  `TEMP_FILE_TTL`; no claim concerns those entries and it is modelled as a
  no-op on the tracked state.
-/

/-- Association-list lookup (Python `dict.get`). -/
def alGet? {α : Type} : List (String × α) → String → Option α
  | [], _ => none
  | (k0, v0) :: rest, k => if k0 = k then some v0 else alGet? rest k

/-- Association-list update (Python `dict[k] = v`): overwrites in place,
appends at the end when the key is fresh, mirroring dict insertion order. -/
def alSet {α : Type} : List (String × α) → String → α → List (String × α)
  | [], k, v => [(k, v)]
  | (k0, v0) :: rest, k, v =>
      if k0 = k then (k0, v) :: rest else (k0, v0) :: alSet rest k v

/-- Association-list removal. -/
def alErase {α : Type} : List (String × α) → String → List (String × α)
  | [], _ => []
  | (k0, v0) :: rest, k =>
      if k0 = k then alErase rest k else (k0, v0) :: alErase rest k

/-- Lookup with default `0`, mirroring `dict.get(k, 0)`. -/
def alGetNat (l : List (String × Nat)) (k : String) : Nat :=
  (alGet? l k).getD 0

theorem alGet?_alSet_self {α : Type} (l : List (String × α)) (k : String) (v : α) :
    alGet? (alSet l k v) k = some v := by
  induction l with
  | nil => simp [alSet, alGet?]
  | cons hd tl ih =>
      obtain ⟨k0, v0⟩ := hd
      by_cases h : k0 = k <;> simp [alSet, alGet?, h, ih]

theorem alGet?_alSet_ne {α : Type} (l : List (String × α)) (k k2 : String) (v : α)
    (h : k2 ≠ k) : alGet? (alSet l k v) k2 = alGet? l k2 := by
  have h' : k ≠ k2 := Ne.symm h
  induction l with
  | nil => simp [alSet, alGet?, h']
  | cons hd tl ih =>
      obtain ⟨k0, v0⟩ := hd
      by_cases h0 : k0 = k
      · subst h0
        simp [alSet, alGet?, h']
      · by_cases h2 : k0 = k2 <;> simp [alSet, alGet?, h0, h2, h, ih]

/-- Python single-quote character, used by `str(list)`. -/
def pyQuote : String := String.singleton (Char.ofNat 39)

/-- Python `repr` of a string (as it appears inside `str(list)`). -/
def pyRepr (s : String) : String := pyQuote ++ s ++ pyQuote

/-- Python `str` of a list of strings, e.g. the text the expression
`str(request["input"])` in `tasks.py` produces from the input path list. -/
def pyStrList (l : List String) : String :=
  "[" ++ String.intercalate ", " (l.map pyRepr) ++ "]"

/-- Opening brace character, for JSON text built at runtime. -/
def jsonLB : String := String.singleton (Char.ofNat 123)

/-- Closing brace character, for JSON text built at runtime. -/
def jsonRB : String := String.singleton (Char.ofNat 125)

/-- JSON string literal (input names never contain characters that need
escaping in the scenarios considered). -/
def jsonStr (s : String) : String := "\"" ++ s ++ "\""

/-! ## Filesystem model -/

/-- The storage state: regular files (path ↦ content) and symlinks
(path ↦ target). -/
structure Disk where
  files : List (String × String)
  links : List (String × String)
  deriving DecidableEq, Repr

/-- Python `Path(p).exists()` / `os.path.exists(p)`: follows symlinks, so a
dangling symlink does not exist. -/
def pathExists (d : Disk) (p : String) : Bool :=
  (alGet? d.files p).isSome ||
    (match alGet? d.links p with
     | some t => (alGet? d.files t).isSome
     | none => false)

/-- Python `open(p, "rb").read()`: follows symlinks; `none` models the
`FileNotFoundError` raised when the path does not exist. -/
def readFile (d : Disk) (p : String) : Option String :=
  match alGet? d.files p with
  | some c => some c
  | none =>
      match alGet? d.links p with
      | some t => alGet? d.files t
      | none => none

/-! ## Checkpoint store (`src/api/utils/error_recovery.py`) -/

/-- The `last_error` entry of a checkpoint record. -/
structure LastError where
  step : String
  error : String
  count : Nat
  deriving DecidableEq, Repr

/-- In-memory state of `ProcessingCheckpoint` (`self.state`). Every mutating
method saves the state to the checkpoint file before returning, so the
persisted record always equals the in-memory one. -/
structure CheckpointState where
  completed_steps : List String
  current_step : Option String
  intermediate_files : List (String × String)
  parameters : List (String × List String)
  error_count : List (String × Nat)
  last_error : Option LastError
  deriving DecidableEq, Repr

/-- The fresh state built by `load_checkpoint` when no checkpoint file
exists. -/
def freshCheckpoint : CheckpointState :=
  ⟨[], none, [], [], [], none⟩

namespace CheckpointState

/-- Python `ProcessingCheckpoint.step_completed`. The `output_file` and `parameters`
arguments are only recorded when truthy (Python `if output_file:` /
`if parameters:`); `run_command` always passes a non-empty
`parameters={"command": command}` and never passes `output_file`. -/
def step_completed (cp : CheckpointState) (step_name : String)
    (output_file : Option String) (params : Option (List String)) :
    CheckpointState :=
  { cp with
    completed_steps := cp.completed_steps ++ [step_name]
    intermediate_files :=
      match output_file with
      | some f => if f = "" then cp.intermediate_files
                  else alSet cp.intermediate_files step_name f
      | none => cp.intermediate_files
    parameters :=
      match params with
      | some p => if p = [] then cp.parameters
                  else alSet cp.parameters step_name p
      | none => cp.parameters }

/-- Python `ProcessingCheckpoint.step_failed`. -/
def step_failed (cp : CheckpointState) (step_name error : String) :
    CheckpointState :=
  let n := alGetNat cp.error_count step_name + 1
  { cp with
    error_count := alSet cp.error_count step_name n
    last_error := some ⟨step_name, error, n⟩ }

/-- Python `ProcessingCheckpoint.can_resume_from`: true iff the step is in
`completed_steps`, its `intermediate_files` entry is truthy, and the recorded
file still exists on storage. -/
def can_resume_from (d : Disk) (cp : CheckpointState) (step_name : String) :
    Bool :=
  if cp.completed_steps.contains step_name then
    match alGet? cp.intermediate_files step_name with
    | some f => if f = "" then false else pathExists d f
    | none => false
  else false

/-- Python `ProcessingCheckpoint.should_retry`. -/
def should_retry (cp : CheckpointState) (step_name : String)
    (max_retries : Nat) : Bool :=
  alGetNat cp.error_count step_name < max_retries

end CheckpointState

/-! ## Fingerprint cache (`src/api/utils/cache_manager.py`) -/

/-- Python `CacheManager(cache_dir="/app/cache")`. -/
def cacheDir : String := "/app/cache"

/-- The path `self.cache_dir / f"{cache_key}.mp4"` used by both cache
methods. -/
def cachePath (cache_key : String) : String :=
  cacheDir ++ "/" ++ cache_key ++ ".mp4"

/-- Python `CacheManager.get_cache_key`: reads the file at `input_path` (raising
`FileNotFoundError`, modelled as `.error`, when absent) and combines the md5
of its content with the md5 of the canonical (sort_keys) JSON dump of the
parameter map, which the caller serializes. -/
def get_cache_key (md5 : String → String) (d : Disk)
    (input_path operation params_json : String) : Except String String :=
  match readFile d input_path with
  | none => .error ("No such file or directory: " ++ input_path)
  | some content =>
      .ok (operation ++ "_" ++ md5 content ++ "_" ++ md5 params_json)

/-- Python `CacheManager.get_cached_result`: returns the cache path iff
`cache_path.exists()` (which follows the symlink, so a dangling entry
misses). -/
def get_cached_result (d : Disk) (cache_key : String) : Option String :=
  if pathExists d (cachePath cache_key) then some (cachePath cache_key)
  else none

/-- Python `CacheManager.cache_result`: `os.symlink(result_path, cache_path)`.
`os.symlink` fails with `FileExistsError` when anything (including a dangling
symlink) already sits at `cache_path`; that exception is modelled as
`.error`. -/
def cache_result (d : Disk) (cache_key result_path : String) :
    Except String Disk :=
  if (alGet? d.files (cachePath cache_key)).isSome
      || (alGet? d.links (cachePath cache_key)).isSome then
    .error ("FileExistsError: " ++ cachePath cache_key)
  else
    .ok { d with links := alSet d.links (cachePath cache_key) result_path }

/-! ## Priority classifier (`src/api/utils/task_priority.py`) -/

/-- Python `get_task_priority`: returns the numeric `Priority.value`
(LOW = 1, MEDIUM = 2, HIGH = 3). -/
def get_task_priority (file_size : Nat) (processing_options : List String) :
    Nat :=
  let priority : Nat := 2
  let priority :=
    if file_size > 1000000000 then 1
    else if file_size < 10000000 then 3
    else priority
  let priority :=
    if processing_options.length > 2 then max 1 (priority - 1) else priority
  priority

/-- Priority levels as the claim states them. -/
inductive SpecLevel
  | low
  | medium
  | high
  deriving DecidableEq, Repr

/-- Numeric value of a level, matching the `Priority` enum. -/
def SpecLevel.value : SpecLevel → Nat
  | .low => 1
  | .medium => 2
  | .high => 3

/-- One-level demotion with Low as the floor (High→Medium, Medium→Low,
Low→Low), as the claim words it. -/
def SpecLevel.demote : SpecLevel → SpecLevel
  | .high => .medium
  | .medium => .low
  | .low => .low

/-- Modelled from the claim words (second definition for the refinement
comparison): start at Medium, demote to Low above the large-input threshold,
promote to High below the small-input threshold, then demote one level if
more than two optional stages are requested. -/
def classify_per_claim (file_size : Nat) (optional_stage_count : Nat) :
    SpecLevel :=
  let base : SpecLevel :=
    if file_size > 1000000000 then .low
    else if file_size < 10000000 then .high
    else .medium
  if optional_stage_count > 2 then base.demote else base

/-! ## Progress tracker (`src/api/utils/progress_tracker.py`) -/

/-- In-memory state of `ProgressTracker`; timestamps are rationals (Python
floats carry real-valued wall-clock times; the claims are about the exact
formula, not float rounding). -/
structure TrackerState where
  total_steps : Nat
  current_step : Nat
  start_time : ℚ
  deriving DecidableEq

/-- The fields of the `meta` dictionary reported by
`current_task.update_state` inside `ProgressTracker.update`. -/
structure ProgressReport where
  progress : ℚ
  current : Nat
  total : Nat
  remaining : ℚ
  deriving DecidableEq

/-- Python `ProgressTracker.update(step=1, status="")` evaluated at wall-clock time
`now`: increments `current_step` by `step`, then computes the percentage and
the estimated remaining time from the incremented count. -/
def tracker_update (st : TrackerState) (now : ℚ) (step : Nat) :
    TrackerState × ProgressReport :=
  let cur := st.current_step + step
  let elapsed := now - st.start_time
  let progress := (cur : ℚ) / (st.total_steps : ℚ) * 100
  let remaining :=
    if cur > 0 then elapsed / (cur : ℚ) * ((st.total_steps : ℚ) - (cur : ℚ))
    else 0
  (⟨st.total_steps, cur, st.start_time⟩, ⟨progress, cur, st.total_steps, remaining⟩)

/-- Percentage reported for `done` of `total` steps, as computed by
`ProgressTracker.update`. -/
def percentOf (done total : Nat) : ℚ :=
  (done : ℚ) / (total : ℚ) * 100

/-! ## Job requests (`src/api/tasks.py`, `src/api/api.py`) -/

/-- The sparse `ai_options` map of a validated request (§6 of the spec /
`validate_request` in `api.py`): each recognized key is either absent
(`none`) or present with its value. An absent-or-falsy value is modelled as
`none` when only truthiness matters; the JSON dump below dumps present keys
only. -/
structure AiOptions where
  superres : Option String
  denoise : Option Bool
  speech2text : Option Bool
  framerateboost : Option Nat
  deriving DecidableEq, Repr

/-- A validated job request (`{"input": [...], "fps": n, "ai_options": {...}}`). -/
structure Request where
  input : List String
  fps : Nat
  ai_options : AiOptions
  deriving DecidableEq, Repr

/-- Python truthiness of an optional string value. -/
def truthyStr : Option String → Bool
  | some s => s ≠ ""
  | none => false

/-- Python truthiness of an optional boolean value. -/
def truthyBool : Option Bool → Bool
  | some b => b
  | none => false

/-- Python truthiness of an optional numeric value. -/
def truthyNum : Option Nat → Bool
  | some n => n ≠ 0
  | none => false

/-- A Python value that can appear in `ai_options.values()`. -/
inductive PyVal
  | vStr (s : String)
  | vBool (b : Bool)
  | vNum (n : Nat)
  deriving DecidableEq, Repr

/-- Python truthiness of a `PyVal`. -/
def pyTruthy : PyVal → Bool
  | .vStr s => s ≠ ""
  | .vBool b => b
  | .vNum n => n ≠ 0

/-- Python `request.get("ai_options", {}).values()`: the values of the present
keys, in the documented key order. -/
def aiValues (o : AiOptions) : List PyVal :=
  (o.superres.map PyVal.vStr).toList ++ (o.denoise.map PyVal.vBool).toList
    ++ (o.speech2text.map PyVal.vBool).toList
    ++ (o.framerateboost.map PyVal.vNum).toList

/-- Python `total_steps = 1 + sum(1 for opt in request.get("ai_options", {}).values() if opt)`
(tasks.py line 130). -/
def total_steps (o : AiOptions) : Nat :=
  1 + ((aiValues o).filter pyTruthy).length

/-- Number of truthy optional parameters, field by field (the spec-side
count used to compare against `total_steps`). -/
def truthyCount (o : AiOptions) : Nat :=
  (if truthyStr o.superres then 1 else 0) + (if truthyBool o.denoise then 1 else 0)
    + (if truthyBool o.speech2text then 1 else 0)
    + (if truthyNum o.framerateboost then 1 else 0)

/-- JSON dump of one present `ai_options` entry (`json.dumps` renders
booleans as `true`/`false`, numbers in decimal, strings quoted). -/
def dumpsAiEntry (key : String) (v : PyVal) : String :=
  jsonStr key ++ ": " ++
    (match v with
     | .vStr s => jsonStr s
     | .vBool b => if b then "true" else "false"
     | .vNum n => toString n)

/-- Python `json.dumps(ai_options, sort_keys=True)`: present keys in sorted order
(denoise < framerateboost < speech2text < superres). -/
def dumpsAiOptions (o : AiOptions) : String :=
  jsonLB ++
    String.intercalate ", "
      (((o.denoise.map (dumpsAiEntry "denoise" ∘ PyVal.vBool)).toList)
        ++ ((o.framerateboost.map (dumpsAiEntry "framerateboost" ∘ PyVal.vNum)).toList)
        ++ ((o.speech2text.map (dumpsAiEntry "speech2text" ∘ PyVal.vBool)).toList)
        ++ ((o.superres.map (dumpsAiEntry "superres" ∘ PyVal.vStr)).toList))
    ++ jsonRB

/-- Python `json.dumps(request, sort_keys=True)`: the canonical serialization of the
full request dictionary, keys in sorted order
(ai_options < fps < input). This is the `params` argument `image_to_video`
passes to `CacheManager.get_cache_key` (it passes the whole `request`). -/
def dumpsRequest (req : Request) : String :=
  jsonLB ++ jsonStr "ai_options" ++ ": " ++ dumpsAiOptions req.ai_options
    ++ ", " ++ jsonStr "fps" ++ ": " ++ toString req.fps
    ++ ", " ++ jsonStr "input" ++ ": [" ++
      String.intercalate ", " (req.input.map jsonStr) ++ "]"
    ++ jsonRB

/-! ## Pipeline executor (`src/api/tasks.py`, `image_to_video`) -/

/-- Python `OUTPUT_DIR` default. -/
def outputDir : String := "/app/videos"

/-- The canonical output path `output_dir / f"video_output_{task_id}.mp4"`. -/
def base_output_path (task_id : String) : String :=
  outputDir ++ "/video_output_" ++ task_id ++ ".mp4"

/-- Python `output_dir / "video_superres.mp4"` (shared, not job-qualified). -/
def superres_tmp : String := outputDir ++ "/video_superres.mp4"

/-- Python `output_dir / "video_denoised.mp4"`. -/
def denoised_tmp : String := outputDir ++ "/video_denoised.mp4"

/-- Python `output_dir / "video_fps_boosted.mp4"`. -/
def fps_boosted_tmp : String := outputDir ++ "/video_fps_boosted.mp4"

/-- Python `output_dir / "transcription.txt"`. -/
def transcription_path : String := outputDir ++ "/transcription.txt"

/-- Outcome of one external stage invocation (`subprocess.run`): normal
exit, `CalledProcessError` with its message, or `TimeoutExpired`. -/
inductive Outcome
  | ok
  | err (e : String)
  | timeout
  deriving DecidableEq, Repr

/-- The external world of a run: the outcome of each stage's command and the
content the stage writes at its output path on success (the stage invocation
contract, §6: a successful stage produces a file at its `--output` path). -/
structure Env where
  outcome : String → Outcome
  produced : String → String

/-- Observable events of a run, in order: stage invocations, checkpoint
completion/failure records, and progress-tracker updates (recorded as the
step counts from which `ProgressTracker.update` computes the percentage). -/
inductive Event
  | invoke (stage : String)
  | stepCompleted (stage : String)
  | stepFailed (stage : String) (error : String)
  | progress (current total : Nat)
  deriving DecidableEq, Repr

/-- Mutable state threaded through one `image_to_video` run. -/
structure RunState where
  disk : Disk
  cp : CheckpointState
  cpDeleted : Bool
  trCur : Nat
  trTotal : Nat
  current_input : String
  events : List Event
  deriving DecidableEq, Repr

/-- The structured result payload returned to the caller. `transcription`
and `cached` are `none` when the corresponding dictionary key is absent. -/
inductive TaskResult
  | complete (output : String) (transcription : Option String)
      (cached : Option Bool)
  | error (msg : String)
  deriving DecidableEq, Repr

/-- What `run_command` hands back to its caller: `True`, `False`, or a
raised exception (`Ignore` from the timeout branch, whose `str()` is empty). -/
inductive CmdRes
  | ok
  | failed
  | raised (msg : String)
  deriving DecidableEq, Repr

/-- Python `run_command(command, error_message, task, checkpoint, step_name)`: runs
the external command; on success records `step_completed(step_name,
parameters={"command": command})` (note: no `output_file`) and the external
process has written `out_path`; on `TimeoutExpired` records
`step_failed(step_name, "Command timeout")` and raises `Ignore`; on
`CalledProcessError e` records `step_failed(step_name, str(e))` and returns
`False`. -/
def run_command (env : Env) (stage out_path : String) (cmd : List String)
    (st : RunState) : RunState × CmdRes :=
  match env.outcome stage with
  | .ok =>
      ({ st with
          cp := st.cp.step_completed stage none (some cmd)
          disk := { st.disk with
                    files := alSet st.disk.files out_path (env.produced stage) }
          events := st.events ++ [.invoke stage, .stepCompleted stage] },
        .ok)
  | .timeout =>
      ({ st with
          cp := st.cp.step_failed stage "Command timeout"
          events := st.events ++ [.invoke stage, .stepFailed stage "Command timeout"] },
        .raised "")
  | .err e =>
      ({ st with
          cp := st.cp.step_failed stage e
          events := st.events ++ [.invoke stage, .stepFailed stage e] },
        .failed)

/-- Python `progress.update(status=...)`: one tracker update with the default
`step=1`. -/
def progress_update (st : RunState) : RunState :=
  { st with
    trCur := st.trCur + 1
    events := st.events ++ [.progress (st.trCur + 1) st.trTotal] }

/-- Control flow of the `image_to_video` body: still running, an early
`return`, or a raised exception heading for the outer `except` handler. -/
inductive ExecFlow
  | cont (st : RunState)
  | stop (r : TaskResult) (st : RunState)
  | exn (msg : String) (st : RunState)
  deriving DecidableEq, Repr

/-- One optional-enhancement block of `image_to_video` (the four
`if ai_options.get(...)` blocks share this exact shape): when the option is
truthy, update progress, run the stage command, and on success feed the
output forward as `current_input` (except the speech-to-text side-output
block, which leaves `current_input` unchanged); on `False` return the
block's error payload; a raised exception propagates. -/
def ai_stage_block (env : Env) (truthy : Bool) (stage out_path err_msg : String)
    (mk_cmd : String → List String) (feeds : Bool) : ExecFlow → ExecFlow
  | .cont st =>
      if truthy then
        let st1 := progress_update st
        match run_command env stage out_path (mk_cmd st1.current_input) st1 with
        | (st2, .ok) =>
            .cont { st2 with
                    current_input := if feeds then out_path else st2.current_input }
        | (st2, .failed) => .stop (.error err_msg) st2
        | (st2, .raised m) => .exn m st2
      else .cont st
  | f => f

/-- The success epilogue of `image_to_video`: move the final artifact to the
canonical output path when it is elsewhere (`os.replace`), register the
fingerprint (`cache_result`, whose `FileExistsError` raises), then delete
the task temp directory and run `checkpoint.cleanup()` (unlink recorded
intermediate files and the checkpoint file), and return the `Complete`
payload. -/
def finalize (cache_key base_out : String) (transcribe : Bool)
    (st : RunState) : ExecFlow :=
  let moved : Except String RunState :=
    if st.current_input = base_out then .ok st
    else
      match alGet? st.disk.files st.current_input with
      | none => .error ("No such file or directory: " ++ st.current_input)
      | some c =>
          .ok { st with
                disk := { st.disk with
                          files := alSet (alErase st.disk.files st.current_input)
                                    base_out c } }
  match moved with
  | .error m => .exn m st
  | .ok st1 =>
      match cache_result st1.disk cache_key base_out with
      | .error m => .exn m st1
      | .ok d2 =>
          let d3 : Disk :=
            { d2 with
              files := st1.cp.intermediate_files.foldl
                        (fun fs kv => alErase fs kv.2) d2.files }
          .stop
            (.complete base_out
              (if transcribe then some transcription_path else none) none)
            { st1 with disk := d3, cpDeleted := true }

/-- The body of `image_to_video` up to the outer exception handler:
checkpoint load, tracker initialization, fingerprint computation and cache
lookup, the mandatory base conversion, the four optional blocks in fixed
order, and the success epilogue. -/
def image_to_video_body (md5 : String → String) (env : Env) (task_id : String)
    (req : Request) (disk0 : Disk)
    (cpStore : List (String × CheckpointState)) : ExecFlow :=
  let cp0 := (alGet? cpStore task_id).getD freshCheckpoint
  let st0 : RunState :=
    ⟨disk0, cp0, false, 0, total_steps req.ai_options, "", []⟩
  match get_cache_key md5 disk0 (pyStrList req.input) "image_to_video"
      (dumpsRequest req) with
  | .error m => .exn m st0
  | .ok cache_key =>
      match get_cached_result disk0 cache_key with
      | some cached => .stop (.complete cached none (some true)) st0
      | none =>
          let base_out := base_output_path task_id
          let st1 := { st0 with current_input := String.intercalate " " req.input }
          let st2 := progress_update st1
          match run_command env "image_to_video" base_out
              (["python3", "/app/processing/image_to_video.py", "--input"]
                ++ req.input
                ++ ["--fps", toString req.fps, "--output", base_out]) st2 with
          | (st3, .raised m) => .exn m st3
          | (st3, .failed) => .stop (.error "Failed to convert images to video") st3
          | (st3, .ok) =>
              let st4 := { st3 with current_input := base_out }
              let o := req.ai_options
              let f := ai_stage_block env (truthyStr o.superres) "super_resolution"
                superres_tmp "Super resolution enhancement failed"
                (fun ci => ["python3", "/app/processing/super_resolution.py",
                  "--input", ci, "--output", superres_tmp,
                  "--resolution", o.superres.getD ""]) true (.cont st4)
              let f := ai_stage_block env (truthyBool o.denoise) "denoise"
                denoised_tmp "Denoising failed"
                (fun ci => ["python3", "/app/processing/denoise.py",
                  "--input", ci, "--output", denoised_tmp]) true f
              let f := ai_stage_block env (truthyBool o.speech2text) "speech_to_text"
                transcription_path "Speech to text conversion failed"
                (fun ci => ["python3", "/app/processing/speech_to_text.py",
                  "--input", ci, "--output", transcription_path]) false f
              let f := ai_stage_block env (truthyNum o.framerateboost) "framerate_boost"
                fps_boosted_tmp "Framerate boost failed"
                (fun ci => ["python3", "/app/processing/framerate_boost.py",
                  "--input", ci, "--output", fps_boosted_tmp,
                  "--fps", toString (o.framerateboost.getD 0)]) true f
              match f with
              | .cont st5 => finalize cache_key base_out (truthyBool o.speech2text) st5
              | other => other

/-- Python `image_to_video(self, request)`: the body wrapped in the outer
`except Exception` handler, which records `step_failed("processing", str(e))`
on any raised exception and returns the structured `Error` payload. -/
def image_to_video (md5 : String → String) (env : Env) (task_id : String)
    (req : Request) (disk0 : Disk)
    (cpStore : List (String × CheckpointState)) : TaskResult × RunState :=
  match image_to_video_body md5 env task_id req disk0 cpStore with
  | .stop r st => (r, st)
  | .exn m st => (.error m, { st with cp := st.cp.step_failed "processing" m })
  | .cont st => (.error "", st)

/-- The stages invoked during a run, in order. -/
def invokedStages (evs : List Event) : List String :=
  evs.filterMap (fun e => match e with | .invoke s => some s | _ => none)

/-- The progress reports issued during a run, in order (step counts as
recorded by `progress_update`). -/
def progressEvents (evs : List Event) : List (Nat × Nat) :=
  evs.filterMap
    (fun e => match e with | .progress c t => some (c, t) | _ => none)

/-! ## Scenario material shared by the concrete theorems -/

/-- Stand-in for the md5 hex digest in closed concrete scenarios. Every run
considered below is agnostic to the concrete hash (the general theorems
quantify over `md5`), so the identity suffices as a concrete instance. -/
def md5Stub : String → String := fun s => s

/-- An environment in which every external stage command exits successfully
and writes its output file. -/
def envAllOk : Env := ⟨fun _ => .ok, fun s => "out-" ++ s⟩

/-! ## C5 -/

/-- C5: a cache lookup returns an artifact path only if a cache entry exists
for that fingerprint (a regular file or a symlink at the cache path) and the
referenced artifact still exists on storage; when the backing artifact of a
symlink entry has been deleted externally, the lookup returns nothing rather
than a broken path or an error. -/
theorem C5_cache_lookup_no_dangling_hits :
    (∀ (d : Disk) (k p : String), get_cached_result d k = some p →
        p = cachePath k
          ∧ ((∃ c, alGet? d.files (cachePath k) = some c)
              ∨ (∃ t c, alGet? d.links (cachePath k) = some t
                    ∧ alGet? d.files t = some c)))
      ∧ (∀ (d : Disk) (k t : String),
          alGet? d.files (cachePath k) = none →
          alGet? d.links (cachePath k) = some t →
          alGet? d.files t = none →
          get_cached_result d k = none) := by
  constructor
  · intro d k p hp
    unfold get_cached_result at hp
    by_cases hex : pathExists d (cachePath k) = true
    · rw [if_pos hex] at hp
      refine ⟨(Option.some_inj.mp hp).symm, ?_⟩
      unfold pathExists at hex
      rcases Bool.or_eq_true_iff.mp hex with h1 | h2
      · exact Or.inl (Option.isSome_iff_exists.mp h1)
      · cases hl : alGet? d.links (cachePath k) with
        | none => rw [hl] at h2; simp at h2
        | some t =>
            rw [hl] at h2
            obtain ⟨c, hc⟩ := Option.isSome_iff_exists.mp h2
            exact Or.inr ⟨t, c, rfl, hc⟩
    · rw [if_neg hex] at hp
      exact absurd hp (by simp)
  · intro d k t hf hl ht
    unfold get_cached_result pathExists
    simp [hf, hl, ht]

/-- C5 witness: a dangling symlink entry misses. -/
theorem C5_cache_lookup_no_dangling_hits_witness :
    alGet? (Disk.mk [] [(cachePath "k0", "/app/videos/gone.mp4")]).files
        (cachePath "k0") = none
      ∧ alGet? (Disk.mk [] [(cachePath "k0", "/app/videos/gone.mp4")]).links
          (cachePath "k0") = some "/app/videos/gone.mp4"
      ∧ alGet? (Disk.mk [] [(cachePath "k0", "/app/videos/gone.mp4")]).files
          "/app/videos/gone.mp4" = none
      ∧ get_cached_result (Disk.mk [] [(cachePath "k0", "/app/videos/gone.mp4")])
          "k0" = none :=
  ⟨by decide, by decide, by decide,
    C5_cache_lookup_no_dangling_hits.2
      (Disk.mk [] [(cachePath "k0", "/app/videos/gone.mp4")]) "k0"
      "/app/videos/gone.mp4" (by decide) (by decide) (by decide)⟩

/-! ## C6 -/

/-- C6: the classifier starts at Medium, demotes to Low above the 1 GB
threshold, promotes to High below the 10 MB threshold, then demotes one
level (with Low as the floor) when more than two optional stages are
requested; a 5 MB input with zero optional stages classifies High and a 2 GB
input with three optional stages classifies Low. -/
theorem C6_priority_classification :
    (∀ (file_size : Nat) (processing_options : List String),
        get_task_priority file_size processing_options
          = (classify_per_claim file_size processing_options.length).value)
      ∧ get_task_priority (5 * 1024 * 1024) [] = SpecLevel.high.value
      ∧ get_task_priority (2 * 1024 * 1024 * 1024)
          ["superres", "denoise", "framerateboost"] = SpecLevel.low.value := by
  refine ⟨fun fs opts => ?_, by decide, by decide⟩
  unfold get_task_priority classify_per_claim
  split_ifs <;> simp [SpecLevel.value, SpecLevel.demote]

/-! ## C7 -/

/-- C7: recording a stage failure via `step_failed` changes only that
stage's error counter and the `last_error` field; `completed_steps`,
`intermediate_files`, `parameters`, `current_step` and every other stage's
error counter are unchanged. -/
theorem C7_step_failed_frame (cp : CheckpointState) (s e : String) :
    (cp.step_failed s e).completed_steps = cp.completed_steps
      ∧ (cp.step_failed s e).intermediate_files = cp.intermediate_files
      ∧ (cp.step_failed s e).parameters = cp.parameters
      ∧ (cp.step_failed s e).current_step = cp.current_step
      ∧ alGetNat (cp.step_failed s e).error_count s = alGetNat cp.error_count s + 1
      ∧ (∀ s2, s2 ≠ s →
          alGetNat (cp.step_failed s e).error_count s2 = alGetNat cp.error_count s2)
      ∧ (cp.step_failed s e).last_error
          = some ⟨s, e, alGetNat cp.error_count s + 1⟩ := by
  refine ⟨rfl, rfl, rfl, rfl, ?_, fun s2 h => ?_, rfl⟩
  · simp [CheckpointState.step_failed, alGetNat, alGet?_alSet_self]
  · simp [CheckpointState.step_failed, alGetNat, alGet?_alSet_ne _ _ _ _ h]

/-- C7 witness: concrete frame check for an unrelated stage name. -/
theorem C7_step_failed_frame_witness :
    ("image_to_video" : String) ≠ "super_resolution"
      ∧ alGetNat ((freshCheckpoint.step_failed "super_resolution" "boom").error_count)
          "image_to_video"
        = alGetNat freshCheckpoint.error_count "image_to_video" :=
  ⟨by decide,
    (C7_step_failed_frame freshCheckpoint "super_resolution" "boom").2.2.2.2.2.1
      "image_to_video" (by decide)⟩

/-! ## C9 -/

theorem filterLen_str (sr : Option String) :
    ((sr.map PyVal.vStr).toList.filter pyTruthy).length
      = if truthyStr sr then 1 else 0 := by
  cases sr with
  | none => rfl
  | some s => by_cases h : s = "" <;> simp [pyTruthy, truthyStr, List.filter, h]

theorem filterLen_bool (b : Option Bool) :
    ((b.map PyVal.vBool).toList.filter pyTruthy).length
      = if truthyBool b then 1 else 0 := by
  cases b with
  | none => rfl
  | some v => cases v <;> simp [pyTruthy, truthyBool, List.filter]

theorem filterLen_num (n : Option Nat) :
    ((n.map PyVal.vNum).toList.filter pyTruthy).length
      = if truthyNum n then 1 else 0 := by
  cases n with
  | none => rfl
  | some v => by_cases h : v = 0 <;> simp [pyTruthy, truthyNum, List.filter, h]

/-- C9: after an update, when the incremented step count is positive the
estimated remaining time equals `elapsed / stepsDone * (stepsTotal -
stepsDone)`; when it is zero the remaining time is zero via the explicit
guard (no division is performed); and the executor's total stage count
equals one mandatory stage plus the number of truthy optional parameters. -/
theorem C9_eta_formula :
    (∀ (st : TrackerState) (now : ℚ) (step : Nat),
        (0 < (tracker_update st now step).2.current →
            (tracker_update st now step).2.remaining
              = (now - st.start_time)
                  / (((tracker_update st now step).2.current : Nat) : ℚ)
                  * ((st.total_steps : ℚ)
                      - (((tracker_update st now step).2.current : Nat) : ℚ)))
          ∧ ((tracker_update st now step).2.current = 0 →
              (tracker_update st now step).2.remaining = 0))
      ∧ (∀ o : AiOptions, total_steps o = 1 + truthyCount o) := by
  constructor
  · intro st now step
    constructor
    · intro h
      simp only [tracker_update] at h ⊢
      rw [if_pos h]
    · intro h
      simp only [tracker_update] at h ⊢
      rw [h]
      simp
  · intro o
    obtain ⟨sr, dn, s2, fb⟩ := o
    simp only [total_steps, aiValues, List.filter_append, List.length_append,
      filterLen_str, filterLen_bool, filterLen_num, truthyCount]

/-- C9 witness: one update from zero with one step on a two-stage job. -/
theorem C9_eta_formula_witness :
    (0 < (tracker_update ⟨2, 0, 0⟩ 10 1).2.current)
      ∧ (tracker_update ⟨2, 0, 0⟩ 10 1).2.remaining
          = ((10 : ℚ) - (0 : ℚ))
              / (((tracker_update ⟨2, 0, 0⟩ 10 1).2.current : Nat) : ℚ)
              * (((2 : Nat) : ℚ) - (((tracker_update ⟨2, 0, 0⟩ 10 1).2.current : Nat) : ℚ))
      ∧ ((tracker_update ⟨2, 1, 0⟩ 10 0).2.current = 0 → False)
      ∧ total_steps ⟨some "x4", none, none, none⟩
          = 1 + truthyCount ⟨some "x4", none, none, none⟩ :=
  ⟨by decide, (C9_eta_formula.1 ⟨2, 0, 0⟩ 10 1).1 (by decide), by decide,
    C9_eta_formula.2 ⟨some "x4", none, none, none⟩⟩

/-! ## C10 -/

/-- The C10 request: no optional stages. -/
def reqC10 : Request := ⟨["f.png"], 24, ⟨none, none, none, none⟩⟩

/-- The fingerprint the run computes for `reqC10` (with the concrete hash
stand-in). -/
def keyC10 : String :=
  "image_to_video" ++ "_" ++ md5Stub "KC" ++ "_" ++ md5Stub (dumpsRequest reqC10)

/-- The C10 starting disk: the input file, a file at the path
`str(request["input"])` denotes so the fingerprint computation succeeds, and
a dangling cache entry for the job's fingerprint whose backing artifact has
been deleted. -/
def diskC10 : Disk :=
  ⟨[("f.png", "F"), (pyStrList ["f.png"], "KC")],
   [(cachePath keyC10, outputDir ++ "/old.mp4")]⟩

/-- C10: `cache_result` raises (`FileExistsError` from `os.symlink`) whenever
any cache entry file already sits at the fingerprint's cache path — including
a dangling entry — so put is not idempotent; concretely, re-completing a job
whose artifact was deleted but whose cache entry remained runs the whole
pipeline successfully (the dangling entry reads as a miss) and then fails at
the final caching step, returning an Error. -/
theorem C10_cache_put_not_idempotent :
    (∀ (d : Disk) (k p : String),
        (alGet? d.links (cachePath k)).isSome = true →
        cache_result d k p = .error ("FileExistsError: " ++ cachePath k))
      ∧ get_cached_result diskC10 keyC10 = none
      ∧ invokedStages (image_to_video md5Stub envAllOk "job1" reqC10 diskC10 []).2.events
          = ["image_to_video"]
      ∧ (image_to_video md5Stub envAllOk "job1" reqC10 diskC10 []).1
          = .error ("FileExistsError: " ++ cachePath keyC10) := by
  refine ⟨fun d k p h => ?_, by decide, by decide, by decide⟩
  simp [cache_result, h]

/-- C10 witness: a dangling entry makes the put raise. -/
theorem C10_cache_put_not_idempotent_witness :
    (alGet? diskC10.links (cachePath keyC10)).isSome = true
      ∧ cache_result diskC10 keyC10 (outputDir ++ "/new.mp4")
          = .error ("FileExistsError: " ++ cachePath keyC10) :=
  ⟨by decide,
    C10_cache_put_not_idempotent.1 diskC10 keyC10 (outputDir ++ "/new.mp4")
      (by decide)⟩

/-! ## C8 -/

/-- C8: a stage invocation that exceeds the wall-clock timeout is recorded
as failed in the checkpoint with the reason `Command timeout` (its error
counter incremented) and `run_command` raises instead of retrying; at the
executor level a timed-out base stage is invoked exactly once in the whole
run and the failure is surfaced to the caller as a structured Error (the
raised `Ignore` is caught by the outer handler, whose `str(e)` is empty). -/
theorem C8_timeout_failfast :
    (∀ (env : Env) (stage out_path : String) (cmd : List String) (st : RunState),
        env.outcome stage = .timeout →
        run_command env stage out_path cmd st
          = ({ st with
               cp := st.cp.step_failed stage "Command timeout"
               events := st.events
                 ++ [.invoke stage, .stepFailed stage "Command timeout"] },
             .raised ""))
      ∧ (∀ (md5 : String → String) (env : Env) (task_id : String) (req : Request)
            (disk0 : Disk) (cpStore : List (String × CheckpointState))
            (content : String),
          readFile disk0 (pyStrList req.input) = some content →
          get_cached_result disk0
              ("image_to_video_" ++ md5 content ++ "_" ++ md5 (dumpsRequest req))
            = none →
          env.outcome "image_to_video" = .timeout →
          (image_to_video md5 env task_id req disk0 cpStore).1 = .error ""
            ∧ invokedStages
                (image_to_video md5 env task_id req disk0 cpStore).2.events
                = ["image_to_video"]
            ∧ Event.stepFailed "image_to_video" "Command timeout"
                ∈ (image_to_video md5 env task_id req disk0 cpStore).2.events
            ∧ alGetNat
                (image_to_video md5 env task_id req disk0 cpStore).2.cp.error_count
                "image_to_video"
              = alGetNat ((alGet? cpStore task_id).getD freshCheckpoint).error_count
                  "image_to_video" + 1) := by
  constructor
  · intro env stage out_path cmd st h
    simp [run_command, h]
  · intro md5 env task_id req disk0 cpStore content hread hmiss htime
    have hne : ("image_to_video" : String) ≠ "processing" := by decide
    simp [image_to_video, image_to_video_body, get_cache_key, hread, hmiss,
      run_command, htime, progress_update, invokedStages,
      CheckpointState.step_failed, alGetNat, alGet?_alSet_self,
      alGet?_alSet_ne _ _ _ _ hne]

/-- An environment that times out every stage command. -/
def envTimeout : Env := ⟨fun _ => .timeout, fun s => "out-" ++ s⟩

/-- The C8 witness request: no optional stages. -/
def reqC8 : Request := ⟨["f.png"], 24, ⟨none, none, none, none⟩⟩

/-- The C8 witness disk: input file plus a file at the
`str(request["input"])` path so the fingerprint computation succeeds. -/
def diskC8 : Disk := ⟨[("f.png", "F"), (pyStrList ["f.png"], "KC")], []⟩

/-- C8 witness: a timed-out base stage on a concrete job. -/
theorem C8_timeout_failfast_witness :
    envTimeout.outcome "image_to_video" = Outcome.timeout
      ∧ readFile diskC8 (pyStrList reqC8.input) = some "KC"
      ∧ get_cached_result diskC8
          ("image_to_video_" ++ md5Stub "KC" ++ "_" ++ md5Stub (dumpsRequest reqC8))
          = none
      ∧ (image_to_video md5Stub envTimeout "job1" reqC8 diskC8 []).1 = .error ""
      ∧ invokedStages
          (image_to_video md5Stub envTimeout "job1" reqC8 diskC8 []).2.events
          = ["image_to_video"] :=
  ⟨rfl, by decide, by decide,
    (C8_timeout_failfast.2 md5Stub envTimeout "job1" reqC8 diskC8 [] "KC"
      (by decide) (by decide) rfl).1,
    (C8_timeout_failfast.2 md5Stub envTimeout "job1" reqC8 diskC8 [] "KC"
      (by decide) (by decide) rfl).2.1⟩

/-! ## C3 -/

/-- An environment in which the super-resolution command fails and every
other stage command succeeds. -/
def envSrFail : Env :=
  ⟨fun s => if s = "super_resolution" then .err "boom" else .ok,
   fun s => "out-" ++ s⟩

/-- The C3 request: super-resolution requested, no other optional stage. -/
def reqSr : Request := ⟨["frame1.png"], 24, ⟨some "x4", none, none, none⟩⟩

/-- The C3 starting disk: the input frame plus a file at the
`str(request["input"])` path so the fingerprint computation succeeds. -/
def diskSr : Disk :=
  ⟨[("frame1.png", "A"), (pyStrList ["frame1.png"], "KC")], []⟩

/-- C3 counterexample: when the super-resolution stage fails after the base
stage completed, the run returns a structured Error naming the failing stage
and the checkpoint retains the base completion — but the canonical output
path is NOT absent: the base stage wrote its output directly to it, refuting
the claim that no file is ever placed there unless the entire pipeline
succeeded. -/
theorem C3_canonical_path_counterexample :
    (image_to_video md5Stub envSrFail "job1" reqSr diskSr []).1
        = .error "Super resolution enhancement failed"
      ∧ pathExists (image_to_video md5Stub envSrFail "job1" reqSr diskSr []).2.disk
          (base_output_path "job1") = true
      ∧ (image_to_video md5Stub envSrFail "job1" reqSr diskSr []).2.cp.completed_steps
          = ["image_to_video"] := by
  refine ⟨by decide, by decide, by decide⟩

/-- C3 (amended): the base stage writes its output directly to the canonical
output path, so after base success the canonical path holds the base output;
when a subsequent optional stage (super-resolution) fails, the run returns a
structured Error naming the failing stage and the checkpoint retains the
base completion, but the canonical output path is populated, not absent (the
final artifact is only moved over it on full success). -/
theorem C3_superres_failure_leaves_base_output
    (md5 : String → String) (env : Env) (task_id : String) (req : Request)
    (disk0 : Disk) (cpStore : List (String × CheckpointState))
    (content e : String)
    (hsr : truthyStr req.ai_options.superres = true)
    (hread : readFile disk0 (pyStrList req.input) = some content)
    (hmiss : get_cached_result disk0
        ("image_to_video_" ++ md5 content ++ "_" ++ md5 (dumpsRequest req)) = none)
    (hok : env.outcome "image_to_video" = .ok)
    (herr : env.outcome "super_resolution" = .err e) :
    (image_to_video md5 env task_id req disk0 cpStore).1
        = .error "Super resolution enhancement failed"
      ∧ pathExists (image_to_video md5 env task_id req disk0 cpStore).2.disk
          (base_output_path task_id) = true
      ∧ (image_to_video md5 env task_id req disk0 cpStore).2.cp.completed_steps
          = ((alGet? cpStore task_id).getD freshCheckpoint).completed_steps
              ++ ["image_to_video"] := by
  simp [image_to_video, image_to_video_body, get_cache_key, hread, hmiss,
    run_command, hok, herr, hsr, progress_update, ai_stage_block,
    CheckpointState.step_completed, CheckpointState.step_failed,
    pathExists, alGet?_alSet_self]

/-- C3 witness: the amended statement at the concrete failing scenario. -/
theorem C3_superres_failure_witness :
    truthyStr reqSr.ai_options.superres = true
      ∧ readFile diskSr (pyStrList reqSr.input) = some "KC"
      ∧ envSrFail.outcome "image_to_video" = .ok
      ∧ envSrFail.outcome "super_resolution" = .err "boom"
      ∧ pathExists (image_to_video md5Stub envSrFail "job1" reqSr diskSr []).2.disk
          (base_output_path "job1") = true :=
  ⟨by decide, by decide, by decide, by decide,
    (C3_superres_failure_leaves_base_output md5Stub envSrFail "job1" reqSr
      diskSr [] "KC" "boom" (by decide) (by decide) (by decide) (by decide)
      (by decide)).2.1⟩

/-! ## C4 -/

/-- The C4 request: no optional stages, so the run has a single stage. -/
def reqC4 : Request := ⟨["f.png"], 24, ⟨none, none, none, none⟩⟩

/-- The C4 starting disk: the input plus a file at the
`str(request["input"])` path so the fingerprint computation succeeds. -/
def diskC4 : Disk := ⟨[("f.png", "F"), (pyStrList ["f.png"], "KC")], []⟩

/-- C4 counterexample: on a single-stage run the very first event is the
progress update reporting 1 of 1 steps — i.e. 100% — and the checkpoint
record of the final stage's completion only appears later in the trace, so
100% is reported before the final stage's completion is recorded. -/
theorem C4_hundred_before_checkpoint_counterexample :
    (image_to_video md5Stub envAllOk "job1" reqC4 diskC4 []).2.events.take 1
        = [Event.progress 1 1]
      ∧ percentOf 1 1 = 100
      ∧ Event.stepCompleted "image_to_video"
          ∈ (image_to_video md5Stub envAllOk "job1" reqC4 diskC4 []).2.events
      ∧ Event.stepCompleted "image_to_video"
          ∉ (image_to_video md5Stub envAllOk "job1" reqC4 diskC4 []).2.events.take 1 := by
  refine ⟨by decide, by norm_num [percentOf], by decide, by decide⟩

/-- C4 (amended): within a single run the reported progress percentage is
monotonically non-decreasing across successive tracker updates; however each
stage's update is issued before invoking that stage, so the 100% report
precedes the final stage's completion record in the checkpoint rather than
following it. -/
theorem C4_progress_monotone_and_early_100 :
    (∀ (st : TrackerState) (n1 n2 : ℚ) (s1 s2 : Nat),
        0 < st.total_steps →
        (tracker_update st n1 s1).2.progress
          ≤ (tracker_update (tracker_update st n1 s1).1 n2 s2).2.progress)
      ∧ (image_to_video md5Stub envAllOk "job1" reqC4 diskC4 []).2.events
          = [Event.progress 1 1, Event.invoke "image_to_video",
             Event.stepCompleted "image_to_video"]
      ∧ percentOf 1 1 = 100 := by
  refine ⟨?_, by decide, by norm_num [percentOf]⟩
  intro st n1 n2 s1 s2 ht
  simp only [tracker_update]
  have h0 : (0 : ℚ) < (st.total_steps : ℚ) := by exact_mod_cast ht
  have key : ((st.current_step + s1 : Nat) : ℚ)
      ≤ ((st.current_step + s1 + s2 : Nat) : ℚ) := by
    exact_mod_cast Nat.le_add_right _ _
  exact mul_le_mul_of_nonneg_right ((div_le_div_iff_of_pos_right h0).mpr key) (by norm_num)

/-- C4 witness: two successive updates on a two-stage tracker. -/
theorem C4_progress_monotone_witness :
    0 < (TrackerState.mk 2 0 0).total_steps
      ∧ (tracker_update ⟨2, 0, 0⟩ 1 1).2.progress
          ≤ (tracker_update (tracker_update ⟨2, 0, 0⟩ 1 1).1 2 1).2.progress :=
  ⟨by decide,
    C4_progress_monotone_and_early_100.1 ⟨2, 0, 0⟩ 1 2 1 1 (by decide)⟩

/-! ## C1 -/

/-- The C1 request: super-resolution, denoising and frame-rate boost are
requested, so the job has 4 stages. -/
def reqC1 : Request := ⟨["f1.png"], 24, ⟨some "x4", some true, none, some 60⟩⟩

/-- The C1 resubmitted checkpoint: 2 of the 4 stages recorded complete, with
their output files recorded (as the claim premises). -/
def cpC1 : CheckpointState :=
  ⟨["image_to_video", "super_resolution"], none,
   [("image_to_video", base_output_path "job1"), ("super_resolution", superres_tmp)],
   [], [], none⟩

/-- The C1 starting disk: input, the `str(request["input"])` file for the
fingerprint computation, and both recorded intermediate files intact. -/
def diskC1 : Disk :=
  ⟨[("f1.png", "A"), (pyStrList ["f1.png"], "KC"),
    (base_output_path "job1", "v0"), (superres_tmp, "v1")], []⟩

/-- The C1 disk with the recorded super-resolution output deleted. -/
def diskC1minus : Disk :=
  ⟨[("f1.png", "A"), (pyStrList ["f1.png"], "KC"),
    (base_output_path "job1", "v0")], []⟩

/-- C1: on resubmission of a job whose checkpoint records 2 of 4 stages
complete with both recorded output files intact, `can_resume_from` validates
both completed stages (and correctly invalidates one whose file is deleted),
yet the executor re-invokes all four stages — it never consults the
checkpoint to skip a stage — and it also records completions without output
files, leaving `intermediate_files` unchanged. -/
theorem C1_resubmission_reinvokes_completed_stages :
    CheckpointState.can_resume_from diskC1 cpC1 "image_to_video" = true
      ∧ CheckpointState.can_resume_from diskC1 cpC1 "super_resolution" = true
      ∧ CheckpointState.can_resume_from diskC1minus cpC1 "super_resolution" = false
      ∧ invokedStages
          (image_to_video md5Stub envAllOk "job1" reqC1 diskC1 [("job1", cpC1)]).2.events
          = ["image_to_video", "super_resolution", "denoise", "framerate_boost"]
      ∧ (image_to_video md5Stub envAllOk "job1" reqC1 diskC1
            [("job1", cpC1)]).2.cp.intermediate_files
          = cpC1.intermediate_files := by
  refine ⟨by decide, by decide, by decide, by decide, by decide⟩

/-! ## C2 -/

/-- The C2 request: two existing input frames, no optional stages. -/
def reqPlain : Request := ⟨["frame1.png", "frame2.png"], 24, ⟨none, none, none, none⟩⟩

/-- The C2 starting disk: exactly the job's input files. -/
def diskPlain : Disk := ⟨[("frame1.png", "A"), ("frame2.png", "B")], []⟩

/-- C2: the fingerprint computation opens `str(request["input"])` — the
Python string rendering of the path list — as the file to content-hash, so
on a filesystem holding exactly the job's input files it raises
`FileNotFoundError` (no fingerprint is computed at all, for any hash
function and any environment) and the task returns an Error; moreover the
parameter map it hashes is the whole request including the input path list,
so two jobs with byte-identical inputs under different names serialize to
different parameter strings. -/
theorem C2_fingerprint_reads_wrong_path :
    pathExists diskPlain "frame1.png" = true
      ∧ pathExists diskPlain "frame2.png" = true
      ∧ readFile diskPlain (pyStrList reqPlain.input) = none
      ∧ (∀ md5 : String → String,
          get_cache_key md5 diskPlain (pyStrList reqPlain.input) "image_to_video"
            (dumpsRequest reqPlain)
            = .error ("No such file or directory: " ++ pyStrList reqPlain.input))
      ∧ (∀ (md5 : String → String) (env : Env),
          (image_to_video md5 env "job1" reqPlain diskPlain []).1
            = .error ("No such file or directory: " ++ pyStrList reqPlain.input))
      ∧ pyStrList ["a.png"] ≠ pyStrList ["b.png"]
      ∧ dumpsRequest ⟨["a.png"], 24, ⟨none, none, none, none⟩⟩
          ≠ dumpsRequest ⟨["b.png"], 24, ⟨none, none, none, none⟩⟩ := by
  refine ⟨by decide, by decide, by decide, fun md5 => rfl, fun md5 env => rfl,
    by decide, by decide⟩
